import Mathlib

/-!
Shallow embedding of the `discovery` Go package (files `discovery.go`,
`tools.go`): LAN peer discovery over IP multicast.  Durations are modelled
as `Int` nanoseconds (Go `time.Duration` is an int64; none of the values
involved approach the 64-bit range, so plain `Int` is faithful for the
comparisons and constants the code performs).  Byte slices are lists of
`Nat` byte values; a Go `nil` slice is `none`.
-/

namespace Discovery

/-- `time.Second` in nanoseconds. -/
def second : Int := 1000000000

/-- Go struct `Options` (discovery.go lines 20-41).  `IPVersion` is a Go
`uint` whose zero value means "unset"; `IPv4 = 4`, `IPv6 = 6`.
`Payload = none` models a `nil` byte slice. -/
structure Options where
  Limit : Int
  TimeLimit : Int
  IPVersion : Nat
  Duration : Int
  BroadcastDelay : Int
  Payload : Option (List Nat)
  Port : String
  MulticastAddress : String
  payloadLen : Nat
deriving DecidableEq, Repr

/-- Go struct `Discovered` (discovery.go lines 93-95). -/
structure Discovered where
  Address : String
deriving DecidableEq, Repr

/-- `initOptions` (discovery.go lines 98-129).  The Go code mutates the
struct field by field in sequence; every default test reads only the
original value of its own field, except that the `MulticastAddress`
default reads the already-resolved `IPVersion` and `payloadLen` reads the
already-resolved `Payload`, which the `let`s below reproduce.  The default
payload is `[]byte("hi") = [104, 105]`. -/
def initOptions (o : Options) : Options :=
  let ipv := if o.IPVersion = 0 then 4 else o.IPVersion
  let payload := if o.Payload = none then some [104, 105] else o.Payload
  { Limit := if o.Limit = 0 then 1 else o.Limit
    TimeLimit := if o.TimeLimit = 0 then 10 * second else o.TimeLimit
    IPVersion := ipv
    Duration := if o.Duration = 0 then -1 * second else o.Duration
    BroadcastDelay := if o.BroadcastDelay = 0 then second else o.BroadcastDelay
    Payload := payload
    Port := if o.Port = "" then "9081" else o.Port
    MulticastAddress :=
      if o.MulticastAddress = "" then
        if ipv = 4 then "239.255.255.250" else "ff02::c"
      else o.MulticastAddress
    payloadLen := (payload.getD []).length }

/-- One entry of `iface.Addrs()` as `FilterInterfaces` inspects it
(tools.go lines 20-29): `valid` models the `*net.IPNet` assertion yielding
a non-nil value with a non-nil IP, `isv4` models `addr.IP.To4() != nil`. -/
structure NetAddrEntry where
  valid : Bool
  isv4 : Bool
deriving DecidableEq, Repr

/-- A host interface as `FilterInterfaces` inspects it: `up` models
`Flags & FlagUp != 0`, `broadcast` models `Flags & FlagBroadcast != 0`. -/
structure NetInterface where
  up : Bool
  broadcast : Bool
  addrs : List NetAddrEntry
deriving DecidableEq, Repr

/-- The inner `supported` loop of `FilterInterfaces` (tools.go lines
18-30): some address entry is valid and its family matches. -/
def ifaceSupported (ipv4 : Bool) (iface : NetInterface) : Bool :=
  iface.addrs.any fun a => a.valid && (a.isv4 == ipv4)

/-- `FilterInterfaces` (tools.go lines 5-36), with the result of
`net.Interfaces()` passed in: skip interfaces that are down or lack
broadcast support, keep those with a family-matching address. -/
def FilterInterfaces (ipv4 : Bool) (allIfaces : List NetInterface) : List NetInterface :=
  allIfaces.filter fun iface => iface.up && iface.broadcast && ifaceSupported ipv4 iface

/-- Digit run accepted by `strconv.Atoi`: one or more ASCII digits. -/
def atoiDigits (l : List Char) : Option Int :=
  if l ≠ [] ∧ l.all Char.isDigit then
    some (l.foldl (fun acc c => acc * 10 + ((c.toNat : Int) - 48)) 0)
  else none

/-- `strconv.Atoi`: an optional sign followed by one or more digits;
anything else is an error (`none`).  (Overflow of 64-bit int is not
modelled; the ports involved are small.) -/
def atoi (s : String) : Option Int :=
  match s.toList with
  | [] => none
  | c :: rest =>
    if c = '+' then atoiDigits rest
    else if c = '-' then (atoiDigits rest).map (fun n => -n)
    else atoiDigits (c :: rest)

/-- Size of the receive buffer `var buf [66507]byte` (discovery.go
line 265). -/
def bufSize : Nat := 66507

/-- A datagram as delivered by `npc.ReadFrom`: its bytes (length = the
returned `n`) and the host part of the source address, i.e. the result of
`net.SplitHostPort(src.String())` (discovery.go line 271). -/
structure Datagram where
  data : List Nat
  srcHost : String
deriving DecidableEq, Repr

/-- `buf[:k]` after a read wrote `data` into the zero-initialised
`bufSize`-byte buffer (discovery.go lines 265-270). -/
def bufLeading (data : List Nat) (k : Nat) : List Nat :=
  (data ++ List.replicate (bufSize - data.length) 0).take k

/-- The acceptance test of the receive goroutine (discovery.go line 270):
`n > 0 && string(Payload) == string(buf[:payloadLen])`. -/
def payloadMatches (o : Options) (d : Datagram) : Bool :=
  decide (0 < d.data.length) && decide (o.Payload.getD [] = bufLeading d.data o.payloadLen)

/-- The accumulator insert (discovery.go lines 272-277): the `received`
map, modelled by its list of keys, gains the source host only if absent. -/
def recordPeer (received : List String) (host : String) : List String :=
  if host ∈ received then received else received ++ [host]

/-- The body of the receive goroutine applied to the one datagram its
single `ReadFrom` returned (discovery.go lines 264-284), restricted to the
accumulator update. -/
def processRead (o : Options) (received : List String) (d : Datagram) : List String :=
  if payloadMatches o d then recordPeer received d.srcHost else received

/-- The count-based completion test (discovery.go lines 278-282): the
`done` signal is raised from the count path iff `Limit > 0` and
`Limit == len(received)`. -/
def limitDoneSignal (o : Options) (receivedSize : Nat) : Bool :=
  decide (0 < o.Limit) && decide (o.Limit = (receivedSize : Int))

/-- The receive goroutine (discovery.go lines 264-284) issues exactly one
`ReadFrom`; `incoming` lists the datagrams available on the socket during
the run, of which only the first is ever read (none arriving leaves the
read blocked and the accumulator untouched). -/
def receiveReadLoop (o : Options) (received : List String) (incoming : List Datagram) :
    List String :=
  match incoming with
  | [] => received
  | d :: _ => processRead o received d

/-- The network environment a run observes: the result of
`net.Interfaces()`, whether that call failed, whether `net.ListenPacket`
succeeds on the configured (group, port), and the datagrams available on
the socket. -/
structure NetEnv where
  allIfaces : List NetInterface
  ifacesErr : Bool
  listenOk : Bool
  incoming : List Datagram
deriving DecidableEq, Repr

/-- `Discover.receive` (discovery.go lines 223-295), taking already
resolved options.  Control flow in source order: `FilterInterfaces` (its
error returned), then — crucially — on an empty interface list the code
prints "no multicast interface found" and executes `return err` where
`err` is nil at that point, so the caller sees success with an untouched
accumulator; then `net.ListenPacket` (error returned), then
`strconv.Atoi(Port)` (error returned), then the read goroutine and the
wait loop, after which the final `return err` returns nil. -/
def Discover.receive (o : Options) (received : List String) (env : NetEnv) :
    Except String (List String) :=
  if env.ifacesErr then Except.error "interface enumeration failed"
  else
    let ifaces := FilterInterfaces (decide (o.IPVersion = 4)) env.allIfaces
    if ifaces.length = 0 then Except.ok received
    else if env.listenOk = false then Except.error "listen failed"
    else
      match atoi o.Port with
      | none => Except.error "invalid port"
      | some _ => Except.ok (receiveReadLoop o received env.incoming)

/-- `Discover.DiscoverBroadcast` (discovery.go lines 206-221): resolve
options, run one receive cycle starting from the fresh empty accumulator
of `NewDiscover`, and on success list the accumulated hosts. -/
def DiscoverBroadcast (o : Options) (env : NetEnv) : Except String (List Discovered) :=
  let o := initOptions o
  match Discover.receive o [] env with
  | Except.error e => Except.error e
  | Except.ok received => Except.ok (received.map Discovered.mk)

/-- The externally observable steps of `StartBroadcast` before the send
loop, in source order. -/
inductive BStep where
  | filterInterfaces
  | listenPacket
  | parsePort
  | joinGroup
  | broadcastLoop
deriving DecidableEq, Repr

/-- `Broadcast.StartBroadcast` (discovery.go lines 131-196) up to entering
the send loop: resolve options, filter interfaces (enumeration error
returned; empty list returns the explicit "no multicast interface found"
error), open the socket with `net.ListenPacket` (error returned), parse
the port with `strconv.Atoi` (error returned), join the group on each
interface (errors only printed), then run the loop.  Returns the trace of
steps performed and the error returned, `none` meaning a nil error. -/
def StartBroadcast (o : Options) (env : NetEnv) : List BStep × Option String :=
  let o := initOptions o
  if env.ifacesErr then ([BStep.filterInterfaces], some "interface enumeration failed")
  else
    let ifaces := FilterInterfaces (decide (o.IPVersion = 4)) env.allIfaces
    if ifaces.length = 0 then ([BStep.filterInterfaces], some "no multicast interface found")
    else if env.listenOk = false then
      ([BStep.filterInterfaces, BStep.listenPacket], some "listen failed")
    else
      match atoi o.Port with
      | none => ([BStep.filterInterfaces, BStep.listenPacket, BStep.parsePort],
          some "invalid port")
      | some _ => ([BStep.filterInterfaces, BStep.listenPacket, BStep.parsePort,
          BStep.joinGroup, BStep.broadcastLoop], none)

/-- Events consumed by the `select` of the broadcast loop (discovery.go
lines 178-194): a value on the `quit` channel or a ticker tick. -/
inductive BEvent where
  | quit
  | tick
deriving DecidableEq, Repr

/-- The broadcast loop over the sequence of channel events it consumes:
`quit` breaks the loop, `tick` broadcasts on every interface and
continues.  Returns whether the loop has exited by the end of the event
sequence. -/
def broadcastLoopStops : List BEvent → Bool
  | [] => false
  | BEvent.quit :: _ => true
  | BEvent.tick :: rest => broadcastLoopStops rest

/-- The self-stop timer (discovery.go lines 171-177): a timer that raises
`quit` after `Duration` is armed iff `Duration > 0`. -/
def quitTimerArmed (o : Options) : Bool :=
  decide (0 < o.Duration)

/-- A signalling channel, reduced to what the claims are about: its buffer
capacity as passed to `make`. -/
structure SignalChan where
  capacity : Nat
deriving DecidableEq, Repr

/-- `NewBroadcast` (discovery.go line 300): `quit: make(chan bool)` — an
unbuffered channel. -/
def newBroadcastQuitChan : SignalChan := { capacity := 0 }

/-- `NewDiscover` (discovery.go line 308): `done: make(chan bool, 1)` — a
channel buffering one value. -/
def newDiscoverDoneChan : SignalChan := { capacity := 1 }

/-- `Broadcast.StopBroadcast` (discovery.go lines 202-204) raises the stop
signal with a plain `b.quit <- true`, a blocking channel send (no
`select`/`default`). -/
def stopBroadcastSendNonBlocking : Bool := false

/-- A send on a signalling channel with no waiting receiver blocks iff the
buffer already holds `pending` values filling its capacity. -/
def sendBlocks (ch : SignalChan) (pending : Nat) : Bool :=
  decide (ch.capacity ≤ pending)

/-- The all-zero `Options` value: every field unset, as a fresh Go
`Options{}` (with `Limit` explicitly 0). -/
def zeroOptions : Options :=
  { Limit := 0, TimeLimit := 0, IPVersion := 0, Duration := 0, BroadcastDelay := 0,
    Payload := none, Port := "", MulticastAddress := "", payloadLen := 0 }

/-- Unset options except an explicitly negative peer limit. -/
def negLimitOptions : Options := { zeroOptions with Limit := -1 }

/-- Unset options except an explicitly positive broadcast duration. -/
def posDurOptions : Options := { zeroOptions with Duration := second }

/-- Unset options except a payload whose last byte is zero. -/
def trailingZeroOptions : Options := { zeroOptions with Payload := some [104, 0] }

/-- Unset options except a non-numeric port that is a plausible service
name (so `net.ListenPacket` can succeed while `strconv.Atoi` fails). -/
def serviceNamePortOptions : Options := { zeroOptions with Port := "http" }

/-- An up, broadcast-capable interface with one valid IPv4 address. -/
def upV4Iface : NetInterface :=
  { up := true, broadcast := true, addrs := [{ valid := true, isv4 := true }] }

/-- A healthy environment: one matching interface, enumeration and bind
succeed, and the given datagrams are available. -/
def okEnv (ds : List Datagram) : NetEnv :=
  { allIfaces := [upV4Iface], ifacesErr := false, listenOk := true, incoming := ds }

/-- An environment whose only interface is administratively down, so the
family filter matches zero interfaces. -/
def downIfaceEnv : NetEnv :=
  { allIfaces := [{ up := false, broadcast := true, addrs := [{ valid := true, isv4 := true }] }],
    ifacesErr := false, listenOk := true,
    incoming := [{ data := [104, 105], srcHost := "10.0.0.5" }] }

/-- A datagram carrying the default payload "hi" plus an extra byte. -/
def hiPlusDatagram : Datagram := { data := [104, 105, 42], srcHost := "192.168.0.9" }

/-- A one-byte datagram: the first byte of `trailingZeroOptions`'s payload
but shorter than it. -/
def shortDatagram : Datagram := { data := [104], srcHost := "10.1.2.3" }

/-! ## Theorems -/

theorem initOptions_Limit (o : Options) :
    (initOptions o).Limit = if o.Limit = 0 then 1 else o.Limit := rfl

theorem initOptions_TimeLimit (o : Options) :
    (initOptions o).TimeLimit = if o.TimeLimit = 0 then 10 * second else o.TimeLimit := rfl

theorem initOptions_IPVersion (o : Options) :
    (initOptions o).IPVersion = if o.IPVersion = 0 then 4 else o.IPVersion := rfl

theorem initOptions_Duration (o : Options) :
    (initOptions o).Duration = if o.Duration = 0 then -1 * second else o.Duration := rfl

theorem initOptions_BroadcastDelay (o : Options) :
    (initOptions o).BroadcastDelay =
      if o.BroadcastDelay = 0 then second else o.BroadcastDelay := rfl

theorem initOptions_Payload (o : Options) :
    (initOptions o).Payload = if o.Payload = none then some [104, 105] else o.Payload := rfl

theorem initOptions_Port (o : Options) :
    (initOptions o).Port = if o.Port = "" then "9081" else o.Port := rfl

theorem initOptions_MulticastAddress (o : Options) :
    (initOptions o).MulticastAddress =
      if o.MulticastAddress = "" then
        if (if o.IPVersion = 0 then 4 else o.IPVersion) = 4 then "239.255.255.250"
        else "ff02::c"
      else o.MulticastAddress := rfl

theorem initOptions_payloadLen (o : Options) :
    (initOptions o).payloadLen =
      ((if o.Payload = none then some [104, 105] else o.Payload).getD []).length := rfl

theorem Options.eq_of_fields {a b : Options}
    (h1 : a.Limit = b.Limit) (h2 : a.TimeLimit = b.TimeLimit)
    (h3 : a.IPVersion = b.IPVersion) (h4 : a.Duration = b.Duration)
    (h5 : a.BroadcastDelay = b.BroadcastDelay) (h6 : a.Payload = b.Payload)
    (h7 : a.Port = b.Port) (h8 : a.MulticastAddress = b.MulticastAddress)
    (h9 : a.payloadLen = b.payloadLen) : a = b := by
  cases a; cases b; simp_all

theorem initOptions_IPVersion_ne_zero (o : Options) : (initOptions o).IPVersion ≠ 0 := by
  rw [initOptions_IPVersion]
  by_cases h : o.IPVersion = 0 <;> simp [h]

theorem initOptions_Payload_ne_none (o : Options) : (initOptions o).Payload ≠ none := by
  rw [initOptions_Payload]
  by_cases h : o.Payload = none <;> simp [h]

/-- Resolution is idempotent on every field. -/
theorem initOptions_initOptions (o : Options) :
    initOptions (initOptions o) = initOptions o := by
  apply Options.eq_of_fields
  · rw [initOptions_Limit (initOptions o), initOptions_Limit o]
    by_cases h : o.Limit = 0 <;> simp [h]
  · rw [initOptions_TimeLimit (initOptions o), initOptions_TimeLimit o]
    by_cases h : o.TimeLimit = 0 <;> simp [h, second]
  · rw [initOptions_IPVersion (initOptions o)]
    simp [initOptions_IPVersion_ne_zero o]
  · rw [initOptions_Duration (initOptions o), initOptions_Duration o]
    by_cases h : o.Duration = 0 <;> simp [h, second]
  · rw [initOptions_BroadcastDelay (initOptions o), initOptions_BroadcastDelay o]
    by_cases h : o.BroadcastDelay = 0 <;> simp [h, second]
  · rw [initOptions_Payload (initOptions o)]
    simp [initOptions_Payload_ne_none o]
  · rw [initOptions_Port (initOptions o), initOptions_Port o]
    by_cases h : o.Port = "" <;> simp [h]
  · rw [initOptions_MulticastAddress (initOptions o), initOptions_IPVersion o]
    rw [initOptions_MulticastAddress o]
    by_cases h : o.MulticastAddress = "" <;>
      by_cases h2 : (if o.IPVersion = 0 then 4 else o.IPVersion) = 4 <;> simp [h, h2]
  · rw [initOptions_payloadLen (initOptions o), initOptions_payloadLen o,
      initOptions_Payload o]
    by_cases h : o.Payload = none <;> simp [h]

/-- C5: Option resolution is idempotent: for every Configuration, applying
`initOptions` twice yields the same Configuration as applying it once. -/
theorem claim_C5_initOptions_idempotent (o : Options) :
    initOptions (initOptions o) = initOptions o :=
  initOptions_initOptions o

/-- C6: `FilterInterfaces` returns exactly those interfaces that are up,
support broadcast, and have at least one valid configured address whose
family matches the requested family; in particular it never returns an
interface that is down or lacks broadcast support. -/
theorem claim_C6_FilterInterfaces_exact (ipv4 : Bool) (l : List NetInterface)
    (i : NetInterface) :
    i ∈ FilterInterfaces ipv4 l ↔
      i ∈ l ∧ i.up = true ∧ i.broadcast = true ∧
        ∃ a ∈ i.addrs, a.valid = true ∧ a.isv4 = ipv4 := by
  simp [FilterInterfaces, ifaceSupported, List.mem_filter, List.any_eq_true,
    Bool.and_eq_true, beq_iff_eq, and_assoc]

/-- C1 counterexample: option resolution does not preserve a peer limit of
0 — `initOptions` on a Configuration with `Limit = 0` yields `Limit = 1`,
not 0. -/
theorem claim_C1_counterexample :
    ¬ ((initOptions zeroOptions).Limit = 0) ∧ (initOptions zeroOptions).Limit = 1 := by
  decide

/-- C1 (amended): option resolution replaces a peer limit of 0 by the
default 1, so a resolved Configuration never has limit 0; the count-based
completion signal fires only for positive limits, so a negative resolved
limit (the only non-positive value a resolved Configuration can carry)
never triggers a count-based early exit — collection then runs until the
time limit. -/
theorem claim_C1_limit_resolution (o : Options) :
    (o.Limit = 0 → (initOptions o).Limit = 1) ∧
    (initOptions o).Limit ≠ 0 ∧
    ((initOptions o).Limit < 0 →
      ∀ sz : Nat, limitDoneSignal (initOptions o) sz = false) := by
  refine ⟨fun h => ?_, ?_, fun h sz => ?_⟩
  · rw [initOptions_Limit]; simp [h]
  · rw [initOptions_Limit]; by_cases h : o.Limit = 0 <;> simp [h]
  · have hpos : ¬ (0 < (initOptions o).Limit) := by omega
    simp [limitDoneSignal, hpos]

theorem claim_C1_limit_resolution_witness :
    (initOptions negLimitOptions).Limit < 0 ∧
    limitDoneSignal (initOptions negLimitOptions) 5 = false ∧
    (initOptions zeroOptions).Limit = 1 :=
  ⟨by decide, (claim_C1_limit_resolution negLimitOptions).2.2 (by decide) 5,
    (claim_C1_limit_resolution zeroOptions).1 (by decide)⟩

/-- C3: on a host where zero interfaces match the family filter,
`StartBroadcast` surfaces the explicit "no multicast interface found"
error, but `DiscoverBroadcast` succeeds with an empty peer list: `receive`
prints the message and then executes `return err` with `err` nil at that
point, so no error reaches the caller. -/
theorem claim_C3_no_iface_divergence :
    (StartBroadcast zeroOptions downIfaceEnv).2 = some "no multicast interface found" ∧
    DiscoverBroadcast zeroOptions downIfaceEnv = Except.ok [] :=
  ⟨by decide, by rfl⟩

/-- C8 counterexample: the Broadcaster's quit channel neither buffers a
pending signal (it is made with capacity 0) nor is its raise operation
(`StopBroadcast`) non-blocking. -/
theorem claim_C8_counterexample :
    ¬ (1 ≤ newBroadcastQuitChan.capacity ∨ stopBroadcastSendNonBlocking = true) := by
  decide

/-- C8 (amended): only the Discoverer's done channel buffers a pending
signal (capacity 1); the Broadcaster's quit channel is unbuffered and
`StopBroadcast` raises it with a plain blocking send, so a stop raised
with no receiver ready already blocks, while one pending done signal does
not. -/
theorem claim_C8_signal_buffering :
    1 ≤ newDiscoverDoneChan.capacity ∧
    newBroadcastQuitChan.capacity = 0 ∧
    stopBroadcastSendNonBlocking = false ∧
    sendBlocks newBroadcastQuitChan 0 = true ∧
    sendBlocks newDiscoverDoneChan 0 = false := by
  decide

/-- `buf[:k]` is the datagram bytes truncated to `k` and zero-padded up to
`k`, whenever `k` fits the buffer. -/
theorem bufLeading_eq (data : List Nat) (k : Nat) (hk : k ≤ bufSize) :
    bufLeading data k = data.take k ++ List.replicate (k - data.length) 0 := by
  unfold bufLeading
  rw [List.take_append_eq_append_take, List.take_replicate]
  have hmin : min (k - data.length) (bufSize - data.length) = k - data.length :=
    min_eq_left (Nat.sub_le_sub_right hk _)
  rw [hmin]

/-- C2 counterexample: with configured payload `[104, 0]` the one-byte
datagram `[104]` is shorter than the payload and its bytes differ from it,
yet the receive step records its source host: the comparison reads
`buf[:payloadLen]` out of the zero-initialised buffer without checking
`n`, so the missing byte is supplied by the buffer's zero padding. -/
theorem claim_C2_counterexample :
    shortDatagram.data.length < (initOptions trailingZeroOptions).payloadLen ∧
    shortDatagram.data ≠ (initOptions trailingZeroOptions).Payload.getD [] ∧
    processRead (initOptions trailingZeroOptions) [] shortDatagram = ["10.1.2.3"] := by
  refine ⟨by decide, by decide, ?_⟩
  rfl

/-- C2 (amended): a datagram is counted iff it is non-empty and the
configured payload equals its first `payloadLen` bytes zero-padded to the
payload length (the buffer is zero-initialised and the code compares
`buf[:payloadLen]` without checking `n`).  For a datagram at least
`payloadLen` long this is exact equality of the leading bytes with the
payload, as the claim states; a shorter datagram is also counted when the
payload equals its bytes followed by zeros.  Non-matching datagrams leave
the accumulator untouched. -/
theorem claim_C2_payload_match (o : Options) (d : Datagram) (received : List String)
    (hk : o.payloadLen ≤ bufSize) :
    (payloadMatches o d = true ↔
      (0 < d.data.length ∧
        o.Payload.getD [] =
          d.data.take o.payloadLen ++ List.replicate (o.payloadLen - d.data.length) 0)) ∧
    (payloadMatches o d = false → processRead o received d = received) := by
  constructor
  · unfold payloadMatches
    rw [bufLeading_eq d.data o.payloadLen hk]
    simp [Bool.and_eq_true, decide_eq_true_iff]
  · intro h
    simp [processRead, h]

theorem claim_C2_payload_match_witness :
    (initOptions zeroOptions).payloadLen ≤ bufSize ∧
    ((payloadMatches (initOptions zeroOptions) hiPlusDatagram = true ↔
      (0 < hiPlusDatagram.data.length ∧
        (initOptions zeroOptions).Payload.getD [] =
          hiPlusDatagram.data.take (initOptions zeroOptions).payloadLen ++
            List.replicate
              ((initOptions zeroOptions).payloadLen - hiPlusDatagram.data.length) 0)) ∧
    (payloadMatches (initOptions zeroOptions) hiPlusDatagram = false →
      processRead (initOptions zeroOptions) [] hiPlusDatagram = [])) :=
  ⟨by decide, claim_C2_payload_match (initOptions zeroOptions) hiPlusDatagram [] (by decide)⟩

/-- The select loop never exits while no quit value arrives. -/
theorem broadcastLoopStops_of_no_quit :
    ∀ evs : List BEvent, BEvent.quit ∉ evs → broadcastLoopStops evs = false := by
  intro evs h
  induction evs with
  | nil => rfl
  | cons e rest ih =>
    cases e with
    | quit => exact absurd (List.mem_cons_self _ _) h
    | tick =>
      rw [broadcastLoopStops]
      exact ih fun hm => h (List.mem_cons_of_mem _ hm)

/-- The select loop exits once a quit value arrives. -/
theorem broadcastLoopStops_append_quit :
    ∀ evs : List BEvent, broadcastLoopStops (evs ++ [BEvent.quit]) = true := by
  intro evs
  induction evs with
  | nil => rfl
  | cons e rest ih => cases e <;> simp [broadcastLoopStops, ih]

/-- C7: if the resolved duration is non-positive (which includes the unset
default, resolved to -1s), the quit timer is not armed and the broadcast
loop never self-stops — it exits only when an explicit quit event (Stop)
is delivered; if the resolved duration is positive, the timer that raises
quit is armed, and the loop exits once that quit event arrives, ticks
notwithstanding. -/
theorem claim_C7_duration_semantics (o : Options) :
    ((initOptions o).Duration ≤ 0 →
      quitTimerArmed (initOptions o) = false ∧
      ∀ evs : List BEvent, BEvent.quit ∉ evs → broadcastLoopStops evs = false) ∧
    (0 < (initOptions o).Duration →
      quitTimerArmed (initOptions o) = true ∧
      ∀ evs : List BEvent, broadcastLoopStops (evs ++ [BEvent.quit]) = true) := by
  constructor
  · intro h
    refine ⟨?_, broadcastLoopStops_of_no_quit⟩
    have : ¬ (0 < (initOptions o).Duration) := by omega
    simp [quitTimerArmed, this]
  · intro h
    exact ⟨by simp [quitTimerArmed, h], broadcastLoopStops_append_quit⟩

theorem claim_C7_duration_semantics_witness :
    (quitTimerArmed (initOptions zeroOptions) = false ∧
      broadcastLoopStops [BEvent.tick, BEvent.tick] = false) ∧
    (quitTimerArmed (initOptions posDurOptions) = true ∧
      broadcastLoopStops [BEvent.tick, BEvent.quit] = true) :=
  ⟨⟨((claim_C7_duration_semantics zeroOptions).1 (by decide)).1,
    ((claim_C7_duration_semantics zeroOptions).1 (by decide)).2
      [BEvent.tick, BEvent.tick] (by decide)⟩,
   ⟨((claim_C7_duration_semantics posDurOptions).2 (by decide)).1,
    ((claim_C7_duration_semantics posDurOptions).2 (by decide)).2 [BEvent.tick]⟩⟩

/-- C4: in a run whose environment is healthy (enumeration succeeds, some
interface matches, the socket opens, the port parses), if the datagrams
arriving all carry a matching payload and come from the same source
address, `DiscoverBroadcast` returns exactly one entry for that address:
the accumulator insert is insert-if-absent on the address key. -/
theorem claim_C4_dedup (o : Options) (env : NetEnv) (h : String)
    (hiferr : env.ifacesErr = false)
    (hif : (FilterInterfaces (decide ((initOptions o).IPVersion = 4)) env.allIfaces).length ≠ 0)
    (hlisten : env.listenOk = true)
    (hport : atoi (initOptions o).Port ≠ none)
    (hne : env.incoming ≠ [])
    (hall : ∀ d ∈ env.incoming, payloadMatches (initOptions o) d = true ∧ d.srcHost = h) :
    DiscoverBroadcast o env = Except.ok [Discovered.mk h] := by
  obtain ⟨p, hp⟩ := Option.ne_none_iff_exists'.mp hport
  obtain ⟨d, rest, hd⟩ : ∃ d rest, env.incoming = d :: rest := by
    cases hin : env.incoming with
    | nil => exact absurd hin hne
    | cons d rest => exact ⟨d, rest, rfl⟩
  have hmatch := hall d (by rw [hd]; exact List.mem_cons_self _ _)
  simp [DiscoverBroadcast, Discover.receive, hiferr, hif, hlisten, hp, hd,
    receiveReadLoop, processRead, recordPeer, hmatch.1, hmatch.2]

theorem claim_C4_dedup_witness :
    DiscoverBroadcast zeroOptions
      (okEnv [{ data := [104, 105], srcHost := "10.0.0.5" },
              { data := [104, 105], srcHost := "10.0.0.5" }]) =
      Except.ok [Discovered.mk "10.0.0.5"] :=
  claim_C4_dedup zeroOptions _ "10.0.0.5" (by decide) (by decide) (by decide)
    (by decide) (by decide) (by decide)

/-- C9 (amended): a non-numeric port is fatal for both roles — the run
returns an error and the broadcast loop (resp. the receive cycle) is never
entered — but the abort does not happen before socket creation: in both
functions `net.ListenPacket` runs before the `strconv.Atoi` port check, so
when the listen call itself accepts the port (e.g. a service name) the
socket is created and only then does the parse abort the run.  (For the
Discoverer the guarantee needs a matching interface, since with none the
nil-error early return of C3 fires first.) -/
theorem claim_C9_bad_port_fatal (o : Options) (env : NetEnv)
    (hport : atoi (initOptions o).Port = none) :
    (StartBroadcast o env).2.isSome = true ∧
    BStep.broadcastLoop ∉ (StartBroadcast o env).1 ∧
    (env.ifacesErr = false →
      (FilterInterfaces (decide ((initOptions o).IPVersion = 4)) env.allIfaces).length ≠ 0 →
      ∃ e, Discover.receive (initOptions o) [] env = Except.error e) := by
  cases h1 : env.ifacesErr with
  | true => simp [StartBroadcast, Discover.receive, h1]
  | false =>
    by_cases h2 :
        (FilterInterfaces (decide ((initOptions o).IPVersion = 4)) env.allIfaces).length = 0
    · simp [StartBroadcast, Discover.receive, h1, h2]
    · cases h3 : env.listenOk with
      | false => simp [StartBroadcast, Discover.receive, h1, h2, h3]
      | true => simp [StartBroadcast, Discover.receive, h1, h2, h3, hport]

theorem claim_C9_bad_port_fatal_witness :
    atoi (initOptions serviceNamePortOptions).Port = none ∧
    ((StartBroadcast serviceNamePortOptions (okEnv [])).2.isSome = true ∧
      BStep.broadcastLoop ∉ (StartBroadcast serviceNamePortOptions (okEnv [])).1 ∧
      ((okEnv []).ifacesErr = false →
        (FilterInterfaces (decide ((initOptions serviceNamePortOptions).IPVersion = 4))
          (okEnv []).allIfaces).length ≠ 0 →
        ∃ e, Discover.receive (initOptions serviceNamePortOptions) [] (okEnv []) =
          Except.error e)) :=
  ⟨by decide, claim_C9_bad_port_fatal serviceNamePortOptions (okEnv []) (by decide)⟩

/-- C9 counterexample: with the non-numeric port "http" and an environment
where the listen call succeeds, `StartBroadcast` does abort with an error,
but its trace shows the socket-creation step `listenPacket` was performed
before the port parse failed — the abort is not "before socket
creation". -/
theorem claim_C9_counterexample :
    atoi (initOptions serviceNamePortOptions).Port = none ∧
    (StartBroadcast serviceNamePortOptions (okEnv [])).2.isSome = true ∧
    BStep.listenPacket ∈ (StartBroadcast serviceNamePortOptions (okEnv [])).1 := by
  decide

/-- The accumulator of a fresh run holds at most one host after the single
read. -/
theorem receiveReadLoop_nil_length (o : Options) (incoming : List Datagram) :
    (receiveReadLoop o [] incoming).length ≤ 1 := by
  cases incoming with
  | nil => simp [receiveReadLoop]
  | cons d rest =>
    by_cases h : payloadMatches o d = true <;>
      simp [receiveReadLoop, processRead, recordPeer, h]

/-- A successful receive cycle on a fresh accumulator yields at most one
host. -/
theorem receive_ok_length (o : Options) (env : NetEnv) (r : List String)
    (h : Discover.receive o [] env = Except.ok r) : r.length ≤ 1 := by
  unfold Discover.receive at h
  cases h1 : env.ifacesErr with
  | true => simp [h1] at h
  | false =>
    simp only [h1] at h
    by_cases h2 :
        (FilterInterfaces (decide (o.IPVersion = 4)) env.allIfaces).length = 0
    · simp [h2] at h
      simp_all
    · cases h3 : env.listenOk with
      | false => simp [h2, h3] at h
      | true =>
        simp only [h2, h3] at h
        cases hp : atoi o.Port with
        | none => simp [hp] at h
        | some p =>
          simp [hp] at h
          have hlen := receiveReadLoop_nil_length o env.incoming
          simp_all

/-- C10: the receive cycle issues exactly one socket read, so a successful
`DiscoverBroadcast` run returns at most one peer, and only the first
datagram available on the socket can affect the result — however many
distinct matching sources send during the window. -/
theorem claim_C10_single_read (o : Options) (env : NetEnv) :
    (∀ peers, DiscoverBroadcast o env = Except.ok peers → peers.length ≤ 1) ∧
    (∀ (d : Datagram) (rest : List Datagram),
      DiscoverBroadcast o { env with incoming := d :: rest } =
        DiscoverBroadcast o { env with incoming := [d] }) := by
  constructor
  · intro peers hpeers
    unfold DiscoverBroadcast at hpeers
    cases hr : Discover.receive (initOptions o) [] env with
    | error e => simp [hr] at hpeers
    | ok received =>
      simp [hr] at hpeers
      have := receive_ok_length (initOptions o) env received hr
      rw [← hpeers]
      simpa using this
  · intro d rest
    rfl

theorem claim_C10_single_read_witness :
    ([Discovered.mk "10.0.0.5"] : List Discovered).length ≤ 1 ∧
    DiscoverBroadcast zeroOptions
      (okEnv [{ data := [104, 105], srcHost := "10.0.0.5" },
              { data := [104, 105], srcHost := "172.16.0.2" }]) =
      Except.ok [Discovered.mk "10.0.0.5"] :=
  ⟨(claim_C10_single_read zeroOptions
      (okEnv [{ data := [104, 105], srcHost := "10.0.0.5" },
              { data := [104, 105], srcHost := "172.16.0.2" }])).1
      [Discovered.mk "10.0.0.5"] (by rfl), by rfl⟩

end Discovery
